import Mathlib

/-!
Verification of docs/multithread_example.c (CPU-MEM-monitor repository).

The C program spawns 10 threads running longParallelComputation1 (Role A,
"myparworker"), then loops forever: each iteration sleeps 10 ms, increments a
counter i, and whenever i % 5000 == 0 spawns 10 more threads running
longParallelComputation2 (Role B, "threadtype2").  It never calls
pthread_join.  Below, the control flow of each function is embedded as
executable Lean definitions over an event alphabet; loops are modelled either
as fuel-indexed runners (to settle termination and non-termination) or as
emitted-event traces.
-/

/-- The two thread behaviours of the program: Role A is
longParallelComputation1 (busy-cycle), Role B is longParallelComputation2
(bounded life). -/
inductive Role where
  | roleA
  | roleB
deriving DecidableEq, Repr

/-- Observable events of the program: setting the process-visible thread name
(prctl PR_SET_NAME), usleep, sleep, the bounded CPU busy computation (with its
number of pow operations), pthread_create of a worker (role and integer
argument), and pthread_join (which the program never performs). -/
inductive Ev where
  | setName (s : String)
  | usleepE (us : Nat)
  | sleepE (secs : Nat)
  | cpuWork (ops : Nat)
  | spawn (r : Role) (idx : Nat)
  | joinEv
deriving DecidableEq, Repr

/-- sprintf(name, "myparworker/%d", (int)arg) in longParallelComputation1. -/
def longParallelComputation1Name (arg : Nat) : String :=
  "myparworker/" ++ toString arg

/-- sprintf(name, "threadtype2/%d", (int)arg) in longParallelComputation2. -/
def longParallelComputation2Name (arg : Nat) : String :=
  "threadtype2/" ++ toString arg

/-- The role string used by each thread function in its sprintf format. -/
def roleString : Role → String
  | .roleA => "myparworker"
  | .roleB => "threadtype2"

/-- Modelled from the spec: the name format "<role>/<index>" (the role name, a
slash, then the worker identifier in decimal), for comparison with the names
the code builds via sprintf. -/
def specWorkerName (r : Role) (idx : Nat) : String :=
  roleString r ++ "/" ++ toString idx

/-- The name a spawned thread will set for itself, by role. -/
def threadNameOf : Role → Nat → String
  | .roleA => longParallelComputation1Name
  | .roleB => longParallelComputation2Name

/-- Number of iterations of the inner busy loop
for (j=0; j<10000000; j++) tmp = pow(tmp, 3);
starting from loop variable value j; each iteration performs one pow. -/
def powFor (j : Nat) : Nat :=
  if j < 10000000 then 1 + powFor (j + 1) else 0
termination_by 10000000 - j
decreasing_by omega

/-- Initialization-tracking run of the busy computation
double tmp; uint64_t j; for (j=0; j<10000000; j++) tmp = pow(tmp, 3);
tmpDef records whether tmp currently holds a program-written value, bad
records whether some iteration has read tmp while it was still undefined.
Each iteration first reads tmp (as the argument of pow), then assigns it. -/
def powLoopUndefRead (j : Nat) (tmpDef : Bool) (bad : Bool) : Bool :=
  if j < 10000000 then powLoopUndefRead (j + 1) true (bad || !tmpDef) else bad
termination_by 10000000 - j
decreasing_by omega

/-- Whether the busy computation of longParallelComputation1, started with tmp
uninitialized (as the C code declares double tmp; without an initializer),
ever reads an undefined value. -/
def busyComputationUndefRead : Bool :=
  powLoopUndefRead 0 false false

/-- Events of one iteration of the while(1) loop of longParallelComputation1,
at loop counter value i: usleep(1000), then, if (i % 10000) == 0, the busy
computation of powFor 0 pow operations. -/
def longParallelComputation1Iter (i : Nat) : List Ev :=
  Ev.usleepE 1000 :: (if i % 10000 == 0 then [Ev.cpuWork (powFor 0)] else [])

/-- Events emitted by the first fuel iterations of the while(1) loop of
longParallelComputation1, starting at loop counter i.  The loop guard is the
C constant 1 (i.e. 1 != 0). -/
def longParallelComputation1EmitGo : Nat → Nat → List Ev
  | _, 0 => []
  | i, fuel + 1 =>
      if (1 : Int) ≠ 0 then
        longParallelComputation1Iter i ++ longParallelComputation1EmitGo (i + 1) fuel
      else []

/-- Events emitted by longParallelComputation1 with argument arg after at most
fuel loop iterations: the prctl PR_SET_NAME call precedes the loop. -/
def longParallelComputation1Emitted (arg fuel : Nat) : List Ev :=
  Ev.setName (longParallelComputation1Name arg) :: longParallelComputation1EmitGo 0 fuel

/-- Fuel-indexed run of the while(1) loop of longParallelComputation1 from
loop counter i: some i means the loop exited with final counter i within the
given fuel, none means it was still running when the fuel ran out. -/
def longParallelComputation1Loop : Nat → Nat → Option Nat
  | _, 0 => none
  | i, fuel + 1 =>
      if (1 : Int) ≠ 0 then longParallelComputation1Loop (i + 1) fuel else some i

/-- Fuel-indexed run of the while(i<10) loop of longParallelComputation2 from
loop counter i: some trace means the loop exited within the given fuel having
emitted trace, none means it was still running when the fuel ran out.  Each
iteration performs sleep(1) then ++i. -/
def longParallelComputation2Loop : Nat → Nat → Option (List Ev)
  | i, 0 => if i < 10 then none else some []
  | i, fuel + 1 =>
      if i < 10 then
        (longParallelComputation2Loop (i + 1) fuel).map (Ev.sleepE 1 :: ·)
      else some []

/-- Events emitted by the first fuel iterations of the while(i<10) loop of
longParallelComputation2, starting at loop counter i. -/
def longParallelComputation2EmitGo : Nat → Nat → List Ev
  | _, 0 => []
  | i, fuel + 1 =>
      if i < 10 then Ev.sleepE 1 :: longParallelComputation2EmitGo (i + 1) fuel
      else []

/-- Events emitted by longParallelComputation2 with argument arg after at most
fuel loop iterations: the prctl PR_SET_NAME call precedes the loop. -/
def longParallelComputation2Emitted (arg fuel : Nat) : List Ev :=
  Ev.setName (longParallelComputation2Name arg) :: longParallelComputation2EmitGo 0 fuel

/-- The initial batch in main:
for (n=0; n < NUM_THREADS/2; n++) pthread_create(&pth, NULL, longParallelComputation1, (void*)n);
with NUM_THREADS = 20, i.e. 10 Role-A spawns with arguments 0..9. -/
def mainInit : List Ev :=
  (List.range 10).map (fun n => Ev.spawn Role.roleA n)

/-- One Role-B batch in main:
for (n=0; n < NUM_THREADS/2; n++) pthread_create(&pth, NULL, longParallelComputation2, (void*)n);
i.e. 10 Role-B spawns with arguments 0..9. -/
def roleBBatch : List Ev :=
  (List.range 10).map (fun n => Ev.spawn Role.roleB n)

/-- Spawn events of the main-loop iteration in which the counter has value i:
if (i % 5000) == 0, a Role-B batch is spawned, otherwise nothing. -/
def tickSpawns (i : Nat) : List Ev :=
  if i % 5000 == 0 then roleBBatch else []

/-- All events of the main-loop iteration with counter value i: usleep(10000)
followed by the conditional Role-B batch. -/
def tickEvents (i : Nat) : List Ev :=
  Ev.usleepE 10000 :: tickSpawns i

/-- State of main's control loop after t iterations: the counter i (which
starts at 0 and is incremented at the start of each iteration, before the
modulo test) and the list of events emitted so far. -/
def ctrlRun : Nat → Nat × List Ev
  | 0 => (0, [])
  | t + 1 =>
      ((ctrlRun t).1 + 1, (ctrlRun t).2 ++ tickEvents ((ctrlRun t).1 + 1))

/-- Fuel-indexed run of main's while(1) loop from counter i: some i means the
loop exited within the given fuel, none means it was still running. -/
def mainLoopRun : Nat → Nat → Option Nat
  | _, 0 => none
  | i, fuel + 1 =>
      if (1 : Int) ≠ 0 then mainLoopRun (i + 1) fuel else some i

/-- The events of main observable after t control-loop iterations: the
initial Role-A batch followed by the loop's events.  No join event is ever
emitted anywhere in the program. -/
def mainTrace (t : Nat) : List Ev :=
  mainInit ++ (ctrlRun t).2

/-- Recognizer for spawn events. -/
def isSpawn : Ev → Bool
  | .spawn _ _ => true
  | _ => false

/-- Recognizer for join events. -/
def isJoin : Ev → Bool
  | .joinEv => true
  | _ => false

/-- Recognizer for name-setting events. -/
def isSetName : Ev → Bool
  | .setName _ => true
  | _ => false

/-- The worker identifiers (pthread_create arguments) of the spawn events of a
trace, in order. -/
def batchIds (evs : List Ev) : List Nat :=
  evs.filterMap (fun e => match e with | .spawn _ n => some n | _ => none)

/-- The process-visible names the spawned workers of a trace will set, in
order. -/
def batchNames (evs : List Ev) : List String :=
  evs.filterMap (fun e => match e with | .spawn r n => some (threadNameOf r n) | _ => none)

/-- The state of main relevant to thread handles: the single pthread_t
variable pth (none before the first pthread_create), the next OS handle to be
handed out, and the (OS-side, not program-visible) list of all handles
created so far. -/
structure MainSt where
  pth : Option Nat
  nextHandle : Nat
  created : List Nat
deriving DecidableEq, Repr

/-- Initial state of main: pth declared but unset, no thread created. -/
def mainSt0 : MainSt := ⟨none, 0, []⟩

/-- Effect of one pthread_create(&pth, ...) call: the OS creates a thread with
a fresh handle and writes that handle into pth, overwriting its previous
contents. -/
def pthreadCreate (s : MainSt) : MainSt :=
  ⟨some s.nextHandle, s.nextHandle + 1, s.created ++ [s.nextHandle]⟩

/-- Run the pthread_create calls of a list of events against a main state:
each spawn event is one pthread_create into the single variable pth. -/
def runSpawns : List Ev → MainSt → MainSt
  | [], s => s
  | e :: rest, s => runSpawns rest (if isSpawn e then pthreadCreate s else s)

/-- The thread handles the program can still retrieve from its state: only
whatever is currently stored in the single variable pth. -/
def retrievableHandles (s : MainSt) : List Nat :=
  s.pth.toList

/-- Number of spawn events in a trace. -/
def countSpawns (evs : List Ev) : Nat :=
  (evs.filter isSpawn).length

/-! ## Helper lemmas -/

lemma powFor_eq (j : Nat) : powFor j = 10000000 - j := by
  by_cases h : j < 10000000
  · have : powFor j = 1 + powFor (j + 1) := by rw [powFor]; simp [h]
    rw [this, powFor_eq (j + 1)]
    omega
  · rw [powFor]
    simp [h]
    omega
termination_by 10000000 - j
decreasing_by omega

lemma powLoopUndefRead_def_const (j : Nat) (b : Bool) :
    powLoopUndefRead j true b = b := by
  by_cases h : j < 10000000
  · have : powLoopUndefRead j true b = powLoopUndefRead (j + 1) true (b || !true) := by
      rw [powLoopUndefRead]; simp [h]
    rw [this]
    simpa using powLoopUndefRead_def_const (j + 1) (b || !true)
  · rw [powLoopUndefRead]
    simp [h]
termination_by 10000000 - j
decreasing_by omega

lemma longParallelComputation1Iter_no_setName (i : Nat) :
    (longParallelComputation1Iter i).countP isSetName = 0 := by
  unfold longParallelComputation1Iter
  by_cases h : i % 10000 == 0 <;> simp [h, List.countP_cons, isSetName]

lemma longParallelComputation1EmitGo_no_setName (fuel : Nat) :
    ∀ i, (longParallelComputation1EmitGo i fuel).countP isSetName = 0 := by
  induction fuel with
  | zero => intro i; simp [longParallelComputation1EmitGo]
  | succ fuel ih =>
      intro i
      simp [longParallelComputation1EmitGo, List.countP_append,
        longParallelComputation1Iter_no_setName, ih]

lemma longParallelComputation2EmitGo_no_setName (fuel : Nat) :
    ∀ i, (longParallelComputation2EmitGo i fuel).countP isSetName = 0 := by
  induction fuel with
  | zero => intro i; simp [longParallelComputation2EmitGo]
  | succ fuel ih =>
      intro i
      by_cases h : i < 10 <;>
        simp [longParallelComputation2EmitGo, h, List.countP_cons, isSetName, ih]

lemma longParallelComputation1Name_spec (arg : Nat) :
    longParallelComputation1Name arg = specWorkerName Role.roleA arg := rfl

lemma longParallelComputation2Name_spec (arg : Nat) :
    longParallelComputation2Name arg = specWorkerName Role.roleB arg := rfl

lemma longParallelComputation1Loop_none (fuel : Nat) :
    ∀ i, longParallelComputation1Loop i fuel = none := by
  induction fuel with
  | zero => intro i; rfl
  | succ fuel ih => intro i; simpa [longParallelComputation1Loop] using ih (i + 1)

lemma mainLoopRun_none (fuel : Nat) :
    ∀ i, mainLoopRun i fuel = none := by
  induction fuel with
  | zero => intro i; rfl
  | succ fuel ih => intro i; simpa [mainLoopRun] using ih (i + 1)

lemma longParallelComputation2Loop_spec (fuel : Nat) :
    ∀ i, 10 - i ≤ fuel →
      longParallelComputation2Loop i fuel = some (List.replicate (10 - i) (Ev.sleepE 1)) := by
  induction fuel with
  | zero =>
      intro i h
      have hi : ¬ i < 10 := by omega
      have h0 : 10 - i = 0 := by omega
      simp [longParallelComputation2Loop, hi, h0]
  | succ fuel ih =>
      intro i h
      by_cases hi : i < 10
      · have : 10 - i = (10 - (i + 1)) + 1 := by omega
        rw [longParallelComputation2Loop, if_pos hi, ih (i + 1) (by omega), this,
          List.replicate_succ]
        rfl
      · have h0 : 10 - i = 0 := by omega
        simp [longParallelComputation2Loop, hi, h0]

lemma ctrlRun_fst (t : Nat) : (ctrlRun t).1 = t := by
  induction t with
  | zero => rfl
  | succ t ih => simp [ctrlRun, ih]

lemma roleBBatch_filter_isSpawn : roleBBatch.filter isSpawn = roleBBatch := by decide

lemma tickEvents_filter_isSpawn (i : Nat) :
    (tickEvents i).filter isSpawn = tickSpawns i := by
  by_cases h : i % 5000 == 0 <;>
    simp [tickEvents, tickSpawns, h, isSpawn, roleBBatch_filter_isSpawn]

lemma tickSpawns_length (i : Nat) :
    (tickSpawns i).length = if i % 5000 = 0 then 10 else 0 := by
  by_cases h : i % 5000 = 0 <;> simp [tickSpawns, h, roleBBatch]

lemma ctrlRun_filter_isSpawn_length (t : Nat) :
    ((ctrlRun t).2.filter isSpawn).length = 10 * (t / 5000) := by
  induction t with
  | zero => rfl
  | succ t ih =>
      rw [show ctrlRun (t + 1) =
          ((ctrlRun t).1 + 1, (ctrlRun t).2 ++ tickEvents ((ctrlRun t).1 + 1)) from rfl]
      rw [List.filter_append, List.length_append, ih, ctrlRun_fst,
        tickEvents_filter_isSpawn, tickSpawns_length]
      by_cases h : (t + 1) % 5000 = 0
      · rw [if_pos h]; omega
      · rw [if_neg h]; omega

lemma ctrlRun_filter_isSpawn_lt_5000 (t : Nat) (h : t < 5000) :
    (ctrlRun t).2.filter isSpawn = [] := by
  induction t with
  | zero => rfl
  | succ t ih =>
      rw [show ctrlRun (t + 1) =
          ((ctrlRun t).1 + 1, (ctrlRun t).2 ++ tickEvents ((ctrlRun t).1 + 1)) from rfl]
      rw [List.filter_append, ih (by omega), ctrlRun_fst, tickEvents_filter_isSpawn]
      have hm : (t + 1) % 5000 = t + 1 := Nat.mod_eq_of_lt (by omega)
      simp [tickSpawns, hm]

lemma ctrlRun_5000_filter_isSpawn :
    (ctrlRun 5000).2.filter isSpawn = roleBBatch := by
  rw [show ctrlRun 5000 =
      ((ctrlRun 4999).1 + 1, (ctrlRun 4999).2 ++ tickEvents ((ctrlRun 4999).1 + 1)) from rfl]
  rw [List.filter_append, ctrlRun_filter_isSpawn_lt_5000 4999 (by omega), ctrlRun_fst,
    tickEvents_filter_isSpawn]
  simp [tickSpawns]

lemma roleBBatch_no_join : roleBBatch.countP isJoin = 0 := by decide

lemma tickEvents_no_join (i : Nat) : (tickEvents i).countP isJoin = 0 := by
  by_cases h : i % 5000 == 0 <;>
    simp [tickEvents, tickSpawns, h, List.countP_cons, isJoin, roleBBatch_no_join]

lemma ctrlRun_no_join (t : Nat) : (ctrlRun t).2.countP isJoin = 0 := by
  induction t with
  | zero => rfl
  | succ t ih =>
      rw [show ctrlRun (t + 1) =
          ((ctrlRun t).1 + 1, (ctrlRun t).2 ++ tickEvents ((ctrlRun t).1 + 1)) from rfl]
      rw [List.countP_append, ih, tickEvents_no_join]

lemma countSpawns_cons_spawn (e : Ev) (rest : List Ev) (he : isSpawn e = true) :
    countSpawns (e :: rest) = countSpawns rest + 1 := by
  simp [countSpawns, he]

lemma runSpawns_spec (evs : List Ev) : ∀ s0 : MainSt,
    (runSpawns evs s0).nextHandle = s0.nextHandle + countSpawns evs ∧
    (runSpawns evs s0).pth =
      (if countSpawns evs = 0 then s0.pth
       else some (s0.nextHandle + countSpawns evs - 1)) ∧
    (runSpawns evs s0).created =
      s0.created ++ List.range' s0.nextHandle (countSpawns evs) := by
  induction evs with
  | nil => intro s0; simp [runSpawns, countSpawns]
  | cons e rest ih =>
      intro s0
      by_cases he : isSpawn e
      · have hc := countSpawns_cons_spawn e rest he
        have hrun : runSpawns (e :: rest) s0 = runSpawns rest (pthreadCreate s0) := by
          simp [runSpawns, he]
        obtain ⟨h1, h2, h3⟩ := ih (pthreadCreate s0)
        refine ⟨?_, ?_, ?_⟩
        · rw [hrun, h1, hc]; simp [pthreadCreate]; omega
        · rw [hrun, h2, hc]
          by_cases hz : countSpawns rest = 0
          · simp [hz, pthreadCreate]
          · simp only [hz, if_false, pthreadCreate]
            rw [if_neg (by omega)]
            congr 1
            omega
        · rw [hrun, h3, hc]
          simp only [pthreadCreate]
          rw [List.range'_succ, List.append_assoc]
          rfl
      · have hc : countSpawns (e :: rest) = countSpawns rest := by
          simp [countSpawns, he]
        have hrun : runSpawns (e :: rest) s0 = runSpawns rest s0 := by
          simp [runSpawns, he]
        rw [hrun, hc]
        exact ih s0

lemma tickSpawns_mul_5000 (g : Nat) : tickSpawns (5000 * g) = roleBBatch := by
  simp [tickSpawns, Nat.mul_mod_right]

lemma batchIds_roleBBatch : batchIds roleBBatch = List.range 10 := by decide

lemma batchNames_roleBBatch :
    batchNames roleBBatch = (List.range 10).map longParallelComputation2Name := by
  simp [batchNames, roleBBatch, List.filterMap_map]
  rfl

/-! ## Claim theorems -/

/-- Claim C1: the claim says every spawned worker is eventually joined before
process exit.  The code contradicts this: main's while(1) loop never exits
for any amount of fuel, and the program's trace after any number of loop
iterations contains zero join events while containing at least the 10 initial
spawns, so no spawned worker is ever joined. -/
theorem main_spawns_never_joined :
    (∀ i fuel, mainLoopRun i fuel = none) ∧
    (∀ t, (mainTrace t).countP isJoin = 0 ∧ 10 ≤ (mainTrace t).countP isSpawn) := by
  constructor
  · intro i fuel
    exact mainLoopRun_none fuel i
  · intro t
    constructor
    · rw [mainTrace, List.countP_append, ctrlRun_no_join]
      decide
    · rw [mainTrace, List.countP_append]
      have h10 : mainInit.countP isSpawn = 10 := by decide
      omega

/-- Claim C2: for each worker the process-visible name is set exactly once,
as the first event at worker start before any loop iteration events, and it
has the spec form "<role>/<index>": the role string followed by a slash and
the decimal worker identifier. -/
theorem worker_name_form_set_once (arg fuel : Nat) :
    (longParallelComputation1Emitted arg fuel).countP isSetName = 1 ∧
    (longParallelComputation1Emitted arg fuel).head? =
      some (Ev.setName (specWorkerName Role.roleA arg)) ∧
    (longParallelComputation2Emitted arg fuel).countP isSetName = 1 ∧
    (longParallelComputation2Emitted arg fuel).head? =
      some (Ev.setName (specWorkerName Role.roleB arg)) := by
  refine ⟨?_, ?_, ?_, ?_⟩
  · simp [longParallelComputation1Emitted, List.countP_cons, isSetName,
      longParallelComputation1EmitGo_no_setName]
  · simp [longParallelComputation1Emitted, longParallelComputation1Name_spec]
  · simp [longParallelComputation2Emitted, List.countP_cons, isSetName,
      longParallelComputation2EmitGo_no_setName]
  · simp [longParallelComputation2Emitted, longParallelComputation2Name_spec]

/-- Claim C3: the Role-B worker loop (longParallelComputation2) performs
exactly 10 one-second sleeps and then terminates on its own: for any fuel of
at least 10 iterations the loop exits with exactly the trace of 10 sleep(1)
events.  The loop takes no stop signal at all: termination is intrinsic. -/
theorem roleB_exactly_ten_sleeps (fuel : Nat) (h : 10 ≤ fuel) :
    longParallelComputation2Loop 0 fuel = some (List.replicate 10 (Ev.sleepE 1)) := by
  simpa using longParallelComputation2Loop_spec fuel 0 (by omega)

/-- Witness for C3 at fuel = 10. -/
theorem roleB_exactly_ten_sleeps_witness :
    10 ≤ 10 ∧
    longParallelComputation2Loop 0 10 = some (List.replicate 10 (Ev.sleepE 1)) :=
  ⟨le_refl 10, roleB_exactly_ten_sleeps 10 (le_refl 10)⟩

/-- Claim C4 counterexample: the claim says the control loop resets the
counter when it crosses the 5000-tick threshold.  It does not: at tick 5000
one Role-B batch of 10 workers has been spawned, yet the counter holds 5000,
not 0 — the code tests i % 5000 == 0 and never resets i. -/
theorem ctrl_counter_not_reset_after_batch :
    ((ctrlRun 5000).2.filter isSpawn).length = 10 ∧
    (ctrlRun 5000).1 = 5000 ∧ ¬ (ctrlRun 5000).1 = 0 := by
  refine ⟨?_, ctrlRun_fst 5000, ?_⟩
  · rw [ctrlRun_5000_filter_isSpawn]
    decide
  · rw [ctrlRun_fst]
    omega

/-- Claim C4 as amended: the control loop advances the counter by one each
tick and never resets it; a Role-B batch of 10 workers is spawned at exactly
the ticks where the counter is a multiple of 5000 (the code uses a modulo
test, which is observationally equivalent to resetting), so after t ticks
10 * (t / 5000) Role-B spawns have occurred, and over the first 5000 ticks
exactly one batch of 10 Role-B workers is spawned. -/
theorem ctrl_modulo_spawn_once_per_5000 :
    (∀ t, (ctrlRun t).1 = t ∧
      ((ctrlRun t).2.filter isSpawn).length = 10 * (t / 5000)) ∧
    (ctrlRun 5000).2.filter isSpawn = roleBBatch ∧
    roleBBatch = (List.range 10).map (Ev.spawn Role.roleB) ∧
    roleBBatch.length = 10 := by
  refine ⟨fun t => ⟨ctrlRun_fst t, ctrlRun_filter_isSpawn_length t⟩,
    ctrlRun_5000_filter_isSpawn, rfl, by decide⟩

/-- Claim C5: within each single batch the identifiers are unique: the
initial Role-A batch assigns exactly the distinct identifiers 0..9, and a
Role-B batch assigns exactly the distinct identifiers 0..9. -/
theorem batch_worker_ids_unique :
    batchIds mainInit = List.range 10 ∧ (batchIds mainInit).Nodup ∧
    batchIds roleBBatch = List.range 10 ∧ (batchIds roleBBatch).Nodup := by
  decide

/-- Claim C6: the Role-A worker loop (longParallelComputation1) never exits
on its own: for every starting counter and every amount of fuel the
fuel-indexed run reports the loop still running, i.e. the thread function
never returns of its own accord. -/
theorem roleA_loop_never_exits :
    ∀ i fuel, longParallelComputation1Loop i fuel = none :=
  fun i fuel => longParallelComputation1Loop_none fuel i

/-- Claim C7: each Role-A loop iteration sleeps 1000 microseconds, and
exactly the iterations whose counter is a multiple of 10000 — including
iteration 0 — additionally perform the bounded CPU computation of exactly
10000000 pow operations. -/
theorem roleA_busy_every_10000th :
    (∀ i, longParallelComputation1Iter i =
      Ev.usleepE 1000 :: (if i % 10000 = 0 then [Ev.cpuWork 10000000] else [])) ∧
    longParallelComputation1Iter 0 = [Ev.usleepE 1000, Ev.cpuWork 10000000] := by
  have hp : powFor 0 = 10000000 := by rw [powFor_eq]
  constructor
  · intro i
    by_cases h : i % 10000 = 0 <;> simp [longParallelComputation1Iter, hp, h]
  · simp [longParallelComputation1Iter, hp]

/-- Claim C8: the claim says the busy computation reads only values it has
initialized.  The code contradicts this: running the busy loop with tmp
undefined, as declared (double tmp; with no initializer), reports a read of
an undefined value — the first iteration evaluates pow(tmp, 3) before tmp
has ever been assigned. -/
theorem busy_computation_reads_undefined_tmp :
    busyComputationUndefRead = true := by
  have h1 : busyComputationUndefRead = powLoopUndefRead 1 true true := by
    rw [busyComputationUndefRead, powLoopUndefRead]
    simp
  rw [h1, powLoopUndefRead_def_const]

/-- Claim C9: after any sequence of events containing k + 1 spawns, the
program retains at most one thread handle: every pthread_create overwrites
the single variable pth, so pth holds exactly the last handle, the only
retrievable handle is the last one, all k + 1 created handles are recorded
only on the OS side, and none of the k earlier handles is retrievable. -/
theorem single_pth_handle_overwritten (evs : List Ev) (s0 : MainSt) (k : Nat)
    (hk : countSpawns evs = k + 1) :
    (retrievableHandles (runSpawns evs s0)).length ≤ 1 ∧
    (runSpawns evs s0).pth = some (s0.nextHandle + k) ∧
    (runSpawns evs s0).nextHandle = s0.nextHandle + k + 1 ∧
    retrievableHandles (runSpawns evs s0) = [s0.nextHandle + k] ∧
    (runSpawns evs s0).created = s0.created ++ List.range' s0.nextHandle (k + 1) ∧
    ∀ j, j < k → s0.nextHandle + j ∉ retrievableHandles (runSpawns evs s0) := by
  obtain ⟨h1, h2, h3⟩ := runSpawns_spec evs s0
  rw [hk] at h1 h2 h3
  have hpth : (runSpawns evs s0).pth = some (s0.nextHandle + k) := by
    rw [h2, if_neg (by omega)]
    congr 1
  have hret : retrievableHandles (runSpawns evs s0) = [s0.nextHandle + k] := by
    rw [retrievableHandles, hpth]
    rfl
  refine ⟨by rw [hret]; simp, hpth, by omega, hret, h3, ?_⟩
  intro j hj
  rw [hret]
  simp only [List.mem_singleton]
  omega

/-- Witness for C9: running the 10 spawns of main's initial batch from the
initial state leaves pth holding only the last handle 9; handle 0 is
irretrievable. -/
theorem single_pth_handle_overwritten_witness :
    countSpawns mainInit = 9 + 1 ∧
    (runSpawns mainInit mainSt0).pth = some 9 ∧
    retrievableHandles (runSpawns mainInit mainSt0) = [9] ∧
    0 ∉ retrievableHandles (runSpawns mainInit mainSt0) := by
  have h := single_pth_handle_overwritten mainInit mainSt0 9 (by decide)
  refine ⟨by decide, ?_, ?_, ?_⟩
  · simpa [mainSt0] using h.2.1
  · simpa [mainSt0] using h.2.2.2.1
  · simpa [mainSt0] using h.2.2.2.2.2 0 (by omega)

/-- Claim C10: worker identifiers and names are reused across Role-B
generations: the batch spawned at the g-th threshold crossing (counter value
5000 * g, g at least 1) is the same for every generation, always assigns the
identifiers 0..9, and always produces the same process-visible names
threadtype2/0 .. threadtype2/9. -/
theorem roleB_generations_reuse_ids_names (g1 g2 : Nat)
    (_hg1 : 1 ≤ g1) (_hg2 : 1 ≤ g2) :
    tickSpawns (5000 * g1) = tickSpawns (5000 * g2) ∧
    batchIds (tickSpawns (5000 * g1)) = List.range 10 ∧
    batchNames (tickSpawns (5000 * g1)) = batchNames (tickSpawns (5000 * g2)) ∧
    batchNames (tickSpawns (5000 * g1)) =
      (List.range 10).map longParallelComputation2Name := by
  rw [tickSpawns_mul_5000, tickSpawns_mul_5000]
  exact ⟨rfl, batchIds_roleBBatch, rfl, batchNames_roleBBatch⟩

/-- Witness for C10 at generations 1 and 2. -/
theorem roleB_generations_reuse_witness :
    tickSpawns (5000 * 1) = tickSpawns (5000 * 2) ∧
    batchIds (tickSpawns (5000 * 1)) = List.range 10 ∧
    batchNames (tickSpawns (5000 * 1)) = batchNames (tickSpawns (5000 * 2)) ∧
    batchNames (tickSpawns (5000 * 1)) =
      (List.range 10).map longParallelComputation2Name :=
  roleB_generations_reuse_ids_names 1 2 (by decide) (by decide)
